import Mathlib

/-!
Verification of the asset-search core of `mmd_uuunyaa_tools` against its
specification.  The definitions below are a shallow embedding of
`src/mmd_uuunyaa_tools/asset_search/panels.py`: the two external collaborators
(asset catalog and content cache) appear as a point-in-time snapshot of their
query functions, and each operator's `execute`/callback body is translated to a
pure Lean function over that snapshot and the UI state it mutates.
-/

namespace MmdUuunyaa

/-- `Content.State` of the content-cache collaborator: lifecycle
`Queued → Running → (Cached | Failed)` (only `CACHED` and `FAILED` are
inspected by `panels.py`). -/
inductive ContentState where
  | queued
  | running
  | cached
  | failed
deriving DecidableEq, Repr

/-- A `Content` record of the content-cache collaborator, keyed by URL. -/
structure Content where
  state : ContentState
  filepath : String
  length : Nat
  type : String
deriving DecidableEq, Repr

/-- `Task.State` of the content-cache collaborator. -/
inductive TaskState where
  | queuing
  | running
  | done
deriving DecidableEq, Repr

/-- A `Task` record of the content-cache collaborator: an outstanding fetch. -/
structure Task where
  state : TaskState
  fetched_size : Nat
  content_length : Nat
deriving DecidableEq, Repr

/-- One tag row of the search query (`tag.name`, `tag.enabled`). -/
structure QueryTag where
  name : String
  enabled : Bool
deriving DecidableEq, Repr

/-- Static metadata of an asset (`AssetDescription`), as read by `panels.py`:
`asset.type.name` is embedded as the `type` string, and `asset.keywords` is the
precomputed lowercase keyword text that the query text is substring-matched
against. -/
structure AssetDescription where
  id : String
  type : String
  name : String
  tag_names : Finset String
  keywords : String
  thumbnail_url : String
  download_url : String
deriving DecidableEq

/-- Point-in-time snapshot of the two external collaborators, exactly the
query surface `panels.py` reads: `ASSETS.is_extracted`,
`CONTENT_CACHE.try_get_content` and `CONTENT_CACHE.try_get_task`. -/
structure Snapshot where
  is_extracted : String → Bool
  try_get_content : String → Option Content
  try_get_task : String → Option Task

/-- The derived `AssetState` enumeration of `panels.py`. -/
inductive AssetState where
  | initialized
  | downloading
  | cached
  | extracted
  | failed
  | unknown
deriving DecidableEq, Repr

/-- `Utilities.is_importable` (panels.py:28-33): extracted, or
`try_get_content(download_url) is not None` — note the source tests only
presence of a record, not its lifecycle state. -/
def is_importable (s : Snapshot) (asset : AssetDescription) : Bool :=
  s.is_extracted asset.id || (s.try_get_content asset.download_url).isSome

/-- `Utilities.get_asset_state` (panels.py:36-56), translated branch by
branch: extraction first; else a present content record is classified
Cached/Failed or falls through to Unknown; else (no record) the task registry
decides Initialized/Downloading, any other combination falling to Unknown. -/
def get_asset_state (s : Snapshot) (asset : AssetDescription) :
    AssetState × Option Content × Option Task :=
  if s.is_extracted asset.id then
    (AssetState.extracted, none, none)
  else
    match s.try_get_content asset.download_url with
    | some content =>
        if content.state = ContentState.cached then
          (AssetState.cached, some content, none)
        else if content.state = ContentState.failed then
          (AssetState.failed, some content, none)
        else
          (AssetState.unknown, none, none)
    | none =>
        match s.try_get_task asset.download_url with
        | none => (AssetState.initialized, none, none)
        | some task =>
            if task.state = TaskState.queuing ∨ task.state = TaskState.running then
              (AssetState.downloading, none, some task)
            else
              (AssetState.unknown, none, none)

/-- `Utilities.get_asset_state` as an explicit state-passing computation over
the collaborator snapshot: every collaborator call is a query that returns its
answer together with the (unchanged) snapshot it was asked on, mirroring that
the Python body only calls the read-only methods `is_extracted`,
`try_get_content` and `try_get_task` and assigns no attribute. -/
def get_asset_state_call (asset : AssetDescription) (s : Snapshot) :
    (AssetState × Option Content × Option Task) × Snapshot :=
  let (extracted, s) := (s.is_extracted asset.id, s)
  if extracted then
    ((AssetState.extracted, none, none), s)
  else
    let (contentOpt, s) := (s.try_get_content asset.download_url, s)
    match contentOpt with
    | some content =>
        if content.state = ContentState.cached then
          ((AssetState.cached, some content, none), s)
        else if content.state = ContentState.failed then
          ((AssetState.failed, some content, none), s)
        else
          ((AssetState.unknown, none, none), s)
    | none =>
        let (taskOpt, s) := (s.try_get_task asset.download_url, s)
        match taskOpt with
        | none => ((AssetState.initialized, none, none), s)
        | some task =>
            if task.state = TaskState.queuing ∨ task.state = TaskState.running then
              ((AssetState.downloading, none, some task), s)
            else
              ((AssetState.unknown, none, none), s)

/-- The search query read from scene properties (panels.py:103-107):
`query.type`, `query.text` (lowercased at use), the tag rows and the
`is_cached` ("Cached" only) toggle. -/
structure SearchQuery where
  type : String
  text : String
  tags : List QueryTag
  is_cached : Bool

/-- `enabled_tag_names = {tag.name for tag in query_tags if tag.enabled}`
(panels.py:109). -/
def enabled_tag_names (tags : List QueryTag) : Finset String :=
  ((tags.filter fun t => t.enabled).map fun t => t.name).toFinset

/-- The tag conjunct of the filter predicate (panels.py:116):
`enabled_tag_count == len(asset.tag_names & enabled_tag_names)`. -/
def tag_filter_pass (enabled : Finset String) (asset : AssetDescription) : Bool :=
  enabled.card = (asset.tag_names ∩ enabled).card

/-- The whole filter predicate of the list comprehension (panels.py:113-120):
category equality, tag-count match, substring match of the lowercased query
text in the precomputed keywords, and `is_importable` when `is_cached` is on. -/
def matches_query (s : Snapshot) (q : SearchQuery) (asset : AssetDescription) : Bool :=
  q.type = asset.type
    && tag_filter_pass (enabled_tag_names q.tags) asset
    && (q.text.toLower.toList <:+: asset.keywords.toList)
    && (if q.is_cached then is_importable s asset else true)

/-- Modelled from the spec: the helper `to_int32` lives in
`mmd_uuunyaa_tools/utilities.py`, which is absent from `src/`; by its name and
standard semantics it truncates an integer to a signed 32-bit value (the spec
treats the resulting generation stamp only as an opaque token). -/
def to_int32 (x : Nat) : Int :=
  if x % 2 ^ 32 < 2 ^ 31 then ((x % 2 ^ 32 : Nat) : Int)
  else ((x % 2 ^ 32 : Nat) : Int) - 2 ^ 32

/-- The generation stamp minted by a search invocation (panels.py:123):
`to_int32(time.time_ns() >> 10)` applied to the clock reading `clock_ns`. -/
def update_time_stamp (clock_ns : Nat) : Int :=
  to_int32 (clock_ns >>> 10)

/-- The scene-held `result` container: `count`, `hit_count`, the append-only
`asset_items` id sequence, and the `update_time` generation stamp. -/
structure SearchResult where
  count : Nat
  hit_count : Nat
  asset_items : List String
  update_time : Int
deriving DecidableEq, Repr

/-- The UI-visible state a thumbnail completion may touch: the active search
result, the global `PREVIEWS` registry (asset id paired with the loaded
filepath), and whether a redraw has been signalled on the region. -/
structure UiState where
  result : SearchResult
  previews : List (String × String)
  redraw : Bool
deriving DecidableEq, Repr

/-- `AssetSearch._on_thumbnail_fetched` (panels.py:86-98): compare the
captured `update_time` with the one stored in the active result; on mismatch
return with no mutation, otherwise append the asset id, load the thumbnail
into `PREVIEWS` unless already present, and tag the region for redraw. -/
def on_thumbnail_fetched (captured : Int) (asset_id filepath : String)
    (st : UiState) : UiState :=
  if st.result.update_time ≠ captured then st
  else
    { result := { st.result with asset_items := st.result.asset_items ++ [asset_id] }
      previews :=
        if (st.previews.map Prod.fst).contains asset_id then st.previews
        else st.previews ++ [(asset_id, filepath)]
      redraw := true }

/-- `AddAssetThumbnail.execute` (panels.py:71-78): the operator variant of the
completion, guarded by the same stamp comparison; appends only the asset id. -/
def add_asset_thumbnail_execute (captured : Int) (asset_id : String)
    (res : SearchResult) : SearchResult :=
  if res.update_time ≠ captured then res
  else { res with asset_items := res.asset_items ++ [asset_id] }

/-- One asynchronous thumbnail-fetch request issued by `AssetSearch.execute`:
the URL handed to `CONTENT_CACHE.async_get_content` together with the
generation stamp and asset captured by the completion closure. -/
structure FetchRequest where
  url : String
  captured : Int
  asset_id : String
deriving DecidableEq, Repr

/-- `AssetSearch.execute` (panels.py:100-136): filter the catalog, compute
`hit_count`, mint the generation stamp from the clock reading, reset the
result container (`count = min(50, hit_count)`, cleared id sequence, new
stamp), and issue one thumbnail-fetch request per surviving asset up to the
cap of 50.  Returns the fresh result together with the issued requests. -/
def asset_search_execute (s : Snapshot) (assets : List AssetDescription)
    (q : SearchQuery) (clock_ns : Nat) : SearchResult × List FetchRequest :=
  let search_results := assets.filter (matches_query s q)
  let hit_count := search_results.length
  let ut := update_time_stamp clock_ns
  let result : SearchResult :=
    { count := min 50 hit_count
      hit_count := hit_count
      asset_items := []
      update_time := ut }
  (result, (search_results.take 50).map fun a => ⟨a.thumbnail_url, ut, a.id⟩)

/-- `AssetImport.execute` (panels.py:183-190): `ASSETS[asset_id]` (a failing
lookup for an unknown id, modelled as `none`), then forward the asset id and
`content.filepath if content is not None else None` to
`ASSETS.execute_import_action`.  The `some` value is the forwarded pair. -/
def asset_import_execute (s : Snapshot) (lookup : String → Option AssetDescription)
    (asset_id : String) : Option (String × Option String) :=
  match lookup asset_id with
  | none => none
  | some asset =>
      let content := s.try_get_content asset.download_url
      some (asset.id, content.map fun c => c.filepath)

/-! ## Theorems for the claims -/

/-- C4: for every asset the catalog reports extracted, `get_asset_state`
returns `Extracted` with no content record and no task, whatever the
content-cache snapshot holds — in particular even when a `Failed` record
exists for the asset's download URL. -/
theorem c4_extracted_priority (s : Snapshot) (a : AssetDescription)
    (h : s.is_extracted a.id = true) :
    get_asset_state s a = (AssetState.extracted, none, none) := by
  unfold get_asset_state
  simp [h]

/-- C4 witness: a concrete snapshot whose cache holds a `Failed` record for
every URL, yet the extracted asset resolves to `Extracted`. -/
theorem c4_extracted_priority_witness :
    get_asset_state
      ⟨fun _ => true, fun _ => some ⟨ContentState.failed, "broken.zip", 3, "zip"⟩,
        fun _ => none⟩
      ⟨"a4", "MODEL_MMD", "A4", ∅, "a4", "tu4", "du4"⟩
      = (AssetState.extracted, none, none) :=
  c4_extracted_priority _ _ rfl

/-- C7: for every asset that is not extracted but whose download URL has a
content record that is neither `Cached` nor `Failed`, `get_asset_state`
returns `Unknown` with no record and no task — never `Downloading`, whatever
the task registry holds. -/
theorem c7_nonterminal_record_unknown (s : Snapshot) (a : AssetDescription)
    (c : Content)
    (h1 : s.is_extracted a.id = false)
    (h2 : s.try_get_content a.download_url = some c)
    (h3 : c.state ≠ ContentState.cached)
    (h4 : c.state ≠ ContentState.failed) :
    get_asset_state s a = (AssetState.unknown, none, none) := by
  unfold get_asset_state
  simp [h1, h2, h3, h4]

/-- C7 witness: a `Running` content record together with a live `Queuing`
fetch task for the same URL still resolves to `Unknown`, not `Downloading`. -/
theorem c7_nonterminal_record_unknown_witness :
    get_asset_state
      ⟨fun _ => false, fun _ => some ⟨ContentState.running, "part.zip", 1, "zip"⟩,
        fun _ => some ⟨TaskState.queuing, 0, 100⟩⟩
      ⟨"a7", "MODEL_MMD", "A7", ∅, "a7", "tu7", "du7"⟩
      = (AssetState.unknown, none, none) :=
  c7_nonterminal_record_unknown _ _ ⟨ContentState.running, "part.zip", 1, "zip"⟩
    rfl rfl (by decide) (by decide)

/-- C8: the state resolver is deterministic and side-effect-free.  In the
state-passing embedding `get_asset_state_call`, one call leaves the
collaborator snapshot unchanged, a second call on the resulting snapshot
returns a structurally identical triple, and the value agrees with the pure
projection `get_asset_state`. -/
theorem c8_resolver_pure (s : Snapshot) (a : AssetDescription) :
    (get_asset_state_call a s).2 = s ∧
    (get_asset_state_call a ((get_asset_state_call a s).2)).1
      = (get_asset_state_call a s).1 ∧
    (get_asset_state_call a s).1 = get_asset_state s a := by
  have key : ∀ s' : Snapshot, get_asset_state_call a s' = (get_asset_state s' a, s') := by
    intro s'
    unfold get_asset_state_call get_asset_state
    cases h1 : s'.is_extracted a.id <;> simp only [h1]
    · cases h2 : s'.try_get_content a.download_url <;> simp only [h2]
      · cases h3 : s'.try_get_task a.download_url <;> simp only [h3]
        · rfl
        · simp only [apply_ite (fun x => (x, s'))]
      · simp only [apply_ite (fun x => (x, s'))]
    · rfl
  simp [key]

/-- C10: the triple returned by `get_asset_state` carries a content record
exactly in the `Cached` and `Failed` states, carries a task exactly in the
`Downloading` state, and never carries both details at once. -/
theorem c10_triple_shape (s : Snapshot) (a : AssetDescription) :
    ((get_asset_state s a).2.1.isSome = true ↔
        (get_asset_state s a).1 = AssetState.cached ∨
        (get_asset_state s a).1 = AssetState.failed) ∧
    ((get_asset_state s a).2.2.isSome = true ↔
        (get_asset_state s a).1 = AssetState.downloading) ∧
    ¬((get_asset_state s a).2.1.isSome = true ∧
        (get_asset_state s a).2.2.isSome = true) := by
  unfold get_asset_state
  split
  · simp
  · split
    · split
      · simp
      · split
        · simp
        · simp
    · split
      · simp
      · split
        · simp
        · simp

/-- C5: an asset passes the tag conjunct of the filter exactly when every
enabled tag name occurs among the asset's tags (AND semantics): the
equal-cardinality test of the source is subset containment. -/
theorem c5_tag_filter_and_semantics (enabled : Finset String) (a : AssetDescription) :
    tag_filter_pass enabled a = true ↔ enabled ⊆ a.tag_names := by
  unfold tag_filter_pass
  simp only [decide_eq_true_eq]
  constructor
  · intro h
    have hsub : a.tag_names ∩ enabled ⊆ enabled := Finset.inter_subset_right
    have heq : a.tag_names ∩ enabled = enabled :=
      Finset.eq_of_subset_of_card_le hsub (le_of_eq h)
    exact Finset.inter_eq_right.mp heq
  · intro h
    rw [Finset.inter_eq_right.mpr h]

/-- C1: a thumbnail-fetch completion whose captured stamp differs from the
stamp stored in the active result mutates nothing — UI state (id sequence,
preview registry, redraw flag) is returned unchanged by
`_on_thumbnail_fetched`, and likewise `AddAssetThumbnail.execute` leaves the
result unchanged; when the stamps are equal the completion appends the asset
id to the id sequence. -/
theorem c1_stale_completion_dropped (captured : Int) (asset_id filepath : String)
    (st : UiState) (res : SearchResult) :
    (st.result.update_time ≠ captured →
      on_thumbnail_fetched captured asset_id filepath st = st) ∧
    (res.update_time ≠ captured →
      add_asset_thumbnail_execute captured asset_id res = res) ∧
    (st.result.update_time = captured →
      (on_thumbnail_fetched captured asset_id filepath st).result.asset_items
        = st.result.asset_items ++ [asset_id]) := by
  refine ⟨?_, ?_, ?_⟩ <;> intro h <;>
    simp [on_thumbnail_fetched, add_asset_thumbnail_execute, h]

/-- C1 witness: with active stamp 5, a completion captured under stamp 7
changes nothing; a completion captured under stamp 5 appends its asset id. -/
theorem c1_stale_completion_dropped_witness :
    on_thumbnail_fetched 7 "a1" "thumb.png" ⟨⟨0, 0, [], 5⟩, [], false⟩
        = ⟨⟨0, 0, [], 5⟩, [], false⟩ ∧
    add_asset_thumbnail_execute 7 "a1" ⟨0, 0, [], 5⟩ = ⟨0, 0, [], 5⟩ ∧
    (on_thumbnail_fetched 5 "a1" "thumb.png" ⟨⟨0, 0, [], 5⟩, [], false⟩).result.asset_items
        = ["a1"] :=
  ⟨(c1_stale_completion_dropped 7 "a1" "thumb.png" ⟨⟨0, 0, [], 5⟩, [], false⟩
      ⟨0, 0, [], 5⟩).1 (by decide),
    (c1_stale_completion_dropped 7 "a1" "thumb.png" ⟨⟨0, 0, [], 5⟩, [], false⟩
      ⟨0, 0, [], 5⟩).2.1 (by decide),
    (c1_stale_completion_dropped 5 "a1" "thumb.png" ⟨⟨0, 0, [], 5⟩, [], false⟩
      ⟨0, 0, [], 5⟩).2.2 rfl⟩

/-- C2 counterexample: the generation stamp is a function of the wall-clock
reading truncated to 1024-nanosecond ticks, so a later invocation (here at
clock reading 1, after an invocation at clock reading 0) can allocate a stamp
equal to — not strictly greater than, not distinct from — the earlier one. -/
theorem c2_counterexample :
    (0 : Nat) < 1 ∧ update_time_stamp 1 = update_time_stamp 0 :=
  ⟨Nat.zero_lt_one, rfl⟩

/-- C2 amended: the stamp allocated at a later clock reading is strictly
greater than the one allocated earlier provided the readings fall in distinct
1024-nanosecond ticks and no signed-32-bit wraparound intervenes (both tick
counts below 2^31). -/
theorem c2_stamp_monotone (t1 t2 : Nat)
    (h1 : t1 >>> 10 < t2 >>> 10) (h2 : t2 >>> 10 < 2 ^ 31) :
    update_time_stamp t1 < update_time_stamp t2 := by
  unfold update_time_stamp to_int32
  have e1 : t1 >>> 10 % 2 ^ 32 = t1 >>> 10 :=
    Nat.mod_eq_of_lt (lt_trans (lt_trans h1 h2) (by norm_num))
  have e2 : t2 >>> 10 % 2 ^ 32 = t2 >>> 10 :=
    Nat.mod_eq_of_lt (lt_trans h2 (by norm_num))
  rw [e1, e2, if_pos (lt_trans h1 h2), if_pos h2]
  exact_mod_cast h1

/-- C2 witness: clock readings 0 and 1024 lie in distinct ticks below the
wraparound bound, and the later stamp is strictly greater. -/
theorem c2_stamp_monotone_witness :
    (0 : Nat) >>> 10 < (1024 : Nat) >>> 10 ∧ (1024 : Nat) >>> 10 < 2 ^ 31 ∧
    update_time_stamp 0 < update_time_stamp 1024 :=
  ⟨by decide, by decide, c2_stamp_monotone 0 1024 (by decide) (by decide)⟩

/-- Concrete collaborator snapshot for claim C3: nothing extracted, the only
content record for any URL is a `Failed` one, no outstanding task. -/
def snapFailedOnly : Snapshot :=
  ⟨fun _ => false, fun _ => some ⟨ContentState.failed, "broken.zip", 1, "zip"⟩, fun _ => none⟩

/-- Concrete asset for claim C3. -/
def assetC3 : AssetDescription :=
  ⟨"a3", "MODEL_MMD", "A3", ∅, "a3", "tu3", "du3"⟩

/-- C3 counterexample: an asset that is not extracted and whose download URL
carries only a `Failed` content record is nevertheless reported importable by
`is_importable` — the source tests only presence of a record, not that its
state is `Cached`. -/
theorem c3_counterexample :
    snapFailedOnly.is_extracted assetC3.id = false ∧
    (snapFailedOnly.try_get_content assetC3.download_url).map (fun c => c.state)
        = some ContentState.failed ∧
    is_importable snapFailedOnly assetC3 = true :=
  ⟨rfl, rfl, rfl⟩

/-- C3 amended: for a non-extracted asset, `is_importable` (hence the
`cachedOnly` filter conjunct) holds exactly when some content record — of any
lifecycle state — exists for the download URL; in particular an asset with
only an outstanding fetch task and no record is not importable. -/
theorem c3_importable_iff_record_present (s : Snapshot) (a : AssetDescription)
    (h : s.is_extracted a.id = false) :
    is_importable s a = true ↔ (s.try_get_content a.download_url).isSome = true := by
  unfold is_importable
  simp [h]

/-- C3 witness: the amended equivalence evaluated on the `Failed`-record-only
snapshot. -/
theorem c3_importable_iff_record_present_witness :
    is_importable snapFailedOnly assetC3 = true ↔
      (snapFailedOnly.try_get_content assetC3.download_url).isSome = true :=
  c3_importable_iff_record_present snapFailedOnly assetC3 rfl

/-- C6: a search invocation records the true number of matching assets in
`hit_count`, caps the displayed `count` at 50, and issues exactly
`min 50 hit_count` asynchronous thumbnail-fetch requests. -/
theorem c6_cap_and_hit_count (s : Snapshot) (assets : List AssetDescription)
    (q : SearchQuery) (clock_ns : Nat) :
    (asset_search_execute s assets q clock_ns).1.hit_count
        = (assets.filter (matches_query s q)).length ∧
    (asset_search_execute s assets q clock_ns).1.count
        = min 50 (assets.filter (matches_query s q)).length ∧
    (asset_search_execute s assets q clock_ns).2.length
        = min 50 (assets.filter (matches_query s q)).length := by
  refine ⟨rfl, rfl, ?_⟩
  simp [asset_search_execute]

/-- C9: importing an asset id the catalog knows never fails in the
dispatcher: with no content record for the asset's download URL it forwards
the id with an absent archive path, and with a record it forwards that
record's filepath. -/
theorem c9_import_tolerates_missing_content (s : Snapshot)
    (lookup : String → Option AssetDescription) (asset_id : String)
    (asset : AssetDescription) (h : lookup asset_id = some asset) :
    (asset_import_execute s lookup asset_id).isSome = true ∧
    (s.try_get_content asset.download_url = none →
      asset_import_execute s lookup asset_id = some (asset.id, none)) ∧
    (∀ c, s.try_get_content asset.download_url = some c →
      asset_import_execute s lookup asset_id = some (asset.id, some c.filepath)) := by
  refine ⟨?_, ?_, ?_⟩
  · simp [asset_import_execute, h]
  · intro hc
    simp [asset_import_execute, h, hc]
  · intro c hc
    simp [asset_import_execute, h, hc]

/-- C9 witness: a catalog that knows asset `a9`, an empty content cache —
the dispatcher forwards `(a9, absent path)`. -/
theorem c9_import_tolerates_missing_content_witness :
    asset_import_execute ⟨fun _ => false, fun _ => none, fun _ => none⟩
        (fun _ => some ⟨"a9", "MODEL_MMD", "A9", ∅, "a9", "tu9", "du9"⟩) "a9"
      = some ("a9", none) :=
  (c9_import_tolerates_missing_content ⟨fun _ => false, fun _ => none, fun _ => none⟩
      (fun _ => some ⟨"a9", "MODEL_MMD", "A9", ∅, "a9", "tu9", "du9"⟩) "a9"
      ⟨"a9", "MODEL_MMD", "A9", ∅, "a9", "tu9", "du9"⟩ rfl).2.1 rfl

end MmdUuunyaa
